import Mathlib

/-!
Verification of the swift-app-builder repository: a shallow embedding of
`scripts/swift_validate.py` and `scripts/scaffold_project.py`.

External effects (temporary-file creation, the two subprocess invocations)
are modelled by an environment record `Env` describing the outcome of each
effect; `validate_swift_code` is a pure function of the code, the `run`
flag and that environment, returning the result together with the
observable trace facts the specification talks about (whether the
execution process was reached, whether the temporary file still exists).
-/

set_option autoImplicit false

namespace SwiftAppBuilder

/-- The fields of a completed `subprocess.run(...)` call that the scripts
read: `returncode`, `stdout`, `stderr` (with `capture_output=True, text=True`). -/
structure ProcResult where
  returncode : Int
  stdout : String
  stderr : String
deriving DecidableEq, Repr

/-- Outcome of the temp-file block `with tempfile.NamedTemporaryFile(mode='w',
suffix='.swift', delete=False) as f: f.write(code); temp_file = f.name`
(swift_validate.py lines 31-33, which sit before the `try`).
`exnBeforeCreate`: `NamedTemporaryFile` itself raises, no file is created.
`exnAfterCreate`: the file was created but `f.write` raises, so the file
exists on disk while the exception propagates. -/
inductive TempOutcome where
  | ok
  | exnBeforeCreate (msg : String)
  | exnAfterCreate (msg : String)
deriving DecidableEq, Repr

/-- Outcome of `subprocess.run(['swiftc', '-typecheck', temp_file], ...)`
(line 38): it either completes with a `ProcResult`, or raises an
`Exception` (no timeout is passed, so `TimeoutExpired` cannot occur here). -/
inductive TypecheckOutcome where
  | completed (r : ProcResult)
  | exn (msg : String)
deriving DecidableEq, Repr

/-- Outcome of `subprocess.run(['swift', temp_file], ..., timeout=5)`
(line 50): completes, raises `subprocess.TimeoutExpired`, or raises some
other `Exception`. -/
inductive ExecOutcome where
  | completed (r : ProcResult)
  | timeoutExpired
  | exn (msg : String)
deriving DecidableEq, Repr

/-- The environment of one `validate_swift_code` call: what each external
effect would do if reached. -/
structure Env where
  tempAcquire : TempOutcome
  typecheck : TypecheckOutcome
  execRun : ExecOutcome
deriving DecidableEq, Repr

/-- The dict built by `validate_swift_code` (lines 25-29):
`{'valid': False, 'output': '', 'errors': ''}` and its mutations. -/
structure ValidationResult where
  valid : Bool
  output : String
  errors : String
deriving DecidableEq, Repr

deriving instance DecidableEq for Except

/-- What one call to `validate_swift_code` did, as observed by the caller
and the file system: the returned dict (or the message of an exception
that propagated out), whether the `swift` execution `subprocess.run` call
was reached, and whether the temporary file still exists on return. -/
structure ValidateTrace where
  result : Except String ValidationResult
  execInvoked : Bool
  tempFileExistsAfter : Bool
deriving DecidableEq, Repr

/-- The literal written at line 45: `result['output'] = "✓ Syntax and type
checking passed"`. -/
def typecheckPassedMsg : String := "✓ Syntax and type checking passed"

/-- Shallow embedding of `validate_swift_code(code, run)`
(swift_validate.py lines 14-62).

Control flow of the source: the temp file is created and written before
the `try` (lines 31-33), so an exception there propagates uncaught and
skips the `finally`.  Inside the `try`: the typecheck process runs (line
38); nonzero `returncode` stores `stderr` into `errors` and returns (lines
40-42); otherwise `valid` is set to `True` and `output` to the check-mark
message (lines 44-45); if `run`, the execution process runs with
`timeout=5` (line 50) and its `stdout` is appended to `output`, with
`stderr` appended as a `Warnings` section when non-empty (lines 51-53).
`except subprocess.TimeoutExpired` sets `errors` to
"Execution timeout (5s limit)" (line 56); `except Exception` sets `errors`
to "Validation error: " plus the message (line 58).  Neither handler
touches `valid` or `output`.  `finally: os.unlink(temp_file)` (line 60)
removes the file on every path that entered the `try`. -/
def validate_swift_code (code : String) (run : Bool) (env : Env) : ValidateTrace :=
  let _ := code
  match env.tempAcquire with
  | .exnBeforeCreate m => ⟨.error m, false, false⟩
  | .exnAfterCreate m => ⟨.error m, false, true⟩
  | .ok =>
    match env.typecheck with
    | .exn m =>
      ⟨.ok ⟨false, "", "Validation error: " ++ m⟩, false, false⟩
    | .completed p =>
      if p.returncode ≠ 0 then
        ⟨.ok ⟨false, "", p.stderr⟩, false, false⟩
      else
        if run then
          match env.execRun with
          | .completed ep =>
            let out1 := typecheckPassedMsg ++ "\n\n--- Execution Output ---\n" ++ ep.stdout
            let out2 := if ep.stderr ≠ "" then out1 ++ "\n--- Warnings ---\n" ++ ep.stderr else out1
            ⟨.ok ⟨true, out2, ""⟩, true, false⟩
          | .timeoutExpired =>
            ⟨.ok ⟨true, typecheckPassedMsg, "Execution timeout (5s limit)"⟩, true, false⟩
          | .exn m =>
            ⟨.ok ⟨true, typecheckPassedMsg, "Validation error: " ++ m⟩, true, false⟩
        else
          ⟨.ok ⟨true, typecheckPassedMsg, ""⟩, false, false⟩

/-- The wrapper f-string of `validate_swiftui_view` (lines 74-87): a
leading newline, `import SwiftUI`, a blank line, the view code verbatim, a
blank line, and the fixed `ValidateApp` declaration referencing
`ContentView`. -/
def swiftui_wrapper (view_code : String) : String :=
  "\nimport SwiftUI\n\n" ++ view_code ++
    "\n\n// Minimal validation wrapper\nstruct ValidateApp: App \x7b\n    var body: some Scene \x7b\n        WindowGroup \x7b\n            ContentView()\n        \x7d\n    \x7d\n\x7d\n"

/-- Shallow embedding of `validate_swiftui_view(view_code)` (lines 64-88):
wrap the fragment and call `validate_swift_code` with `run=False`. -/
def validate_swiftui_view (view_code : String) (env : Env) : ValidateTrace :=
  validate_swift_code (swiftui_wrapper view_code) false env

/-- The observable effect of the tail of `main` (lines 113-118): the exit
status and what is printed on each stream. -/
structure CliReport where
  exitCode : Nat
  stdoutText : String
  stderrText : String
deriving DecidableEq, Repr

/-- Embedding of lines 113-118 of `main`: on a valid result print
`✅ VALID` plus the output to stdout and exit 0; otherwise print
`❌ INVALID` plus the errors to stderr and exit 1 (`print` appends a
newline). -/
def report_result (r : ValidationResult) : CliReport :=
  if r.valid then
    ⟨0, "✅ VALID\n" ++ r.output ++ "\n", ""⟩
  else
    ⟨1, "", "❌ INVALID\n" ++ r.errors ++ "\n"⟩

/-- Embedding of the dispatch at lines 108-118 of `main`: run the view
validator or plain validator on the selected code, then report.  When
`validate_swift_code` itself raises (temp-file failure) the Python process
dies on an uncaught exception rather than reaching lines 113-118; that is
the `none` case. -/
def cli_main (view run : Bool) (code : String) (env : Env) : Option CliReport :=
  let t := if view then validate_swiftui_view code env else validate_swift_code code run env
  match t.result with
  | .error _ => none
  | .ok r => some (report_result r)

/-! ## Scaffolder (`scaffold_project.py`) -/

/-- One record of the `TEMPLATES` dict (scaffold_project.py lines 13-29). -/
structure Template where
  name : String
  platforms : String
  deployment_target : String
deriving DecidableEq, Repr

/-- `TEMPLATES['ios']` (lines 14-18). -/
def ios_template : Template :=
  ⟨"iOS App (SwiftUI)", "iOS", "17.0"⟩

/-- `TEMPLATES['macos']` (lines 19-23). -/
def macos_template : Template :=
  ⟨"macOS App (SwiftUI)", "macOS", "14.0"⟩

/-- `TEMPLATES['multiplatform']` (lines 24-28). -/
def multiplatform_template : Template :=
  ⟨"Multiplatform App", "iOS, macOS", "iOS 17.0, macOS 14.0"⟩

/-- The `TEMPLATES` dict (lines 13-29) as an association list. -/
def TEMPLATES : List (String × Template) :=
  [("ios", ios_template), ("macos", macos_template), ("multiplatform", multiplatform_template)]

/-- `TEMPLATES.get(platform, TEMPLATES['ios'])` (line 57). -/
def templates_get (platform : String) : Template :=
  (TEMPLATES.lookup platform).getD ios_template

/-- `pat in s`: Python's substring membership test, used by the
`'iOS' in template['platforms']` checks at lines 64-65.
`startsWithL s pat` decides whether `pat` is an initial segment of `s`. -/
def startsWithL : List Char → List Char → Bool
  | _, [] => true
  | [], _ :: _ => false
  | a :: s, b :: pat => a == b && startsWithL s pat

/-- Whether `pat` occurs as a contiguous run somewhere in `s`. -/
def containsL : List Char → List Char → Bool
  | [], pat => startsWithL [] pat
  | a :: s, pat => startsWithL (a :: s) pat || containsL s pat

/-- Python's `pat in s` on strings. -/
def strContains (s pat : String) : Bool :=
  containsL s.data pat.data

/-- The constant part of the `package_swift` f-string before the first
interpolation of `name` (line 58 up to `name: "`). -/
def pkgHead : String :=
  "// swift-tools-version: 5.9\nimport PackageDescription\n\nlet package = Package(\n    name: \""

/-- The constant part between `name` and the platforms entries
(lines 62-64 of the script's f-string). -/
def pkgAfterName : String :=
  "\",\n    platforms: [\n        "

/-- The whitespace the f-string places between the two conditional
platform entries (end of line 64 and the indentation of line 65): a
newline and eight spaces, no comma. -/
def pkgPlatformSep : String :=
  "\n        "

/-- The constant part of the f-string after the platform entries, with the
three remaining `name` interpolations (lines 66-74). -/
def pkgTail (name : String) : String :=
  "\n    ],\n    products: [\n        .executable(name: \"" ++ name ++ "\", targets: [\"" ++ name ++
    "\"])\n    ],\n    targets: [\n        .executableTarget(name: \"" ++ name ++ "\")\n    ]\n)\n"

/-- The `package_swift` text built by `create_swiftui_app_structure`
(scaffold_project.py lines 57-74): the f-string with `name` interpolated
and the two platform entries included exactly when `'iOS'` (resp.
`'macOS'`) is a substring of the template's `platforms` field. -/
def package_swift_text (name : String) (template : Template) : String :=
  pkgHead ++ name ++ pkgAfterName ++
    (if strContains template.platforms "iOS" then ".iOS(.v17)" else "") ++
    pkgPlatformSep ++
    (if strContains template.platforms "macOS" then ".macOS(.v14)" else "") ++
    pkgTail name

/-- The console line `print(f"   Platform: {template['platforms']}")`
(line 125). -/
def platform_line (template : Template) : String :=
  "   Platform: " ++ template.platforms

/-! ## Helper lemmas -/

/-- With `run=False`, `validate_swift_code` never reaches the `swift`
execution call, whatever the environment does. -/
lemma execInvoked_false_of_run_false (code : String) (env : Env) :
    (validate_swift_code code false env).execInvoked = false := by
  obtain ⟨ta, tc, ex⟩ := env
  cases ta with
  | ok =>
    cases tc with
    | exn m => rfl
    | completed p =>
      by_cases hp : p.returncode = 0 <;>
        simp [validate_swift_code, hp]
  | exnBeforeCreate m => rfl
  | exnAfterCreate m => rfl

/-! ## Claims -/

/-- C1: the claim says that when type-check exits zero, `run=True`, and
execution hits the 5-second timeout, `validate` returns `valid = False`
with `errors = "execution timeout (5s limit)"`.  The code disagrees:
`result['valid']` was already set to `True` at line 44 and the
`TimeoutExpired` handler (line 56) only writes `errors`, so the returned
dict has `valid = True` together with the (differently capitalised)
message `"Execution timeout (5s limit)"`; `main` then prints `✅ VALID`
and exits 0, and the timeout message is never displayed.  This theorem
evaluates the embedding at the failing input. -/
theorem C1_timeout_result_stays_valid :
    (validate_swift_code "while true \x7b \x7d" true
        ⟨.ok, .completed ⟨0, "", ""⟩, .timeoutExpired⟩).result =
      Except.ok ⟨true, typecheckPassedMsg, "Execution timeout (5s limit)"⟩ := rfl

/-- C2 counterexample: an exception raised while writing the temporary
file (lines 31-33, which sit before the `try`) propagates out of
`validate_swift_code` uncaught, contradicting the claim that every
exception during steps 1-5 is caught inside `validate`. -/
theorem C2_counterexample :
    (validate_swift_code "print(1)" false
        ⟨.exnAfterCreate "No space left on device", .completed ⟨0, "", ""⟩,
          .completed ⟨0, "", ""⟩⟩).result =
      Except.error "No space left on device" := rfl

/-- C2 (amended): once the temp-file block has succeeded, no exception
escapes the `try` (the call always returns a result); an exception raised
by the type-check invocation yields `valid = False` and
`errors = "Validation error: <message>"`; an exception raised by the
execution invocation (after type-check success) yields the same `errors`
text but leaves `valid = True`.  Exceptions during temp-file
acquisition/writing are not covered: they propagate (see the
counterexample). -/
theorem C2_try_block_exceptions_caught (code : String) (run : Bool) (env : Env)
    (h : env.tempAcquire = TempOutcome.ok) :
    ((validate_swift_code code run env).result.isOk = true) ∧
    (∀ m, env.typecheck = TypecheckOutcome.exn m →
      (validate_swift_code code run env).result =
        Except.ok ⟨false, "", "Validation error: " ++ m⟩) ∧
    (∀ m p, env.typecheck = TypecheckOutcome.completed p → p.returncode = 0 →
      run = true → env.execRun = ExecOutcome.exn m →
      (validate_swift_code code run env).result =
        Except.ok ⟨true, typecheckPassedMsg, "Validation error: " ++ m⟩) := by
  obtain ⟨ta, tc, ex⟩ := env
  simp only at h
  subst h
  refine ⟨?_, ?_, ?_⟩
  · cases tc with
    | exn m => rfl
    | completed p =>
      by_cases hp : p.returncode = 0
      · cases run with
        | false => simp [validate_swift_code, hp, Except.isOk, Except.toBool]
        | true =>
          cases ex <;> simp [validate_swift_code, hp, Except.isOk, Except.toBool]
      · simp [validate_swift_code, hp, Except.isOk, Except.toBool]
  · rintro m rfl
    rfl
  · rintro m p rfl hp rfl rfl
    simp [validate_swift_code, hp]

/-- C2 witness: a type-check-time exception is caught and rewrapped. -/
theorem C2_try_block_exceptions_caught_witness :
    (validate_swift_code "x" false ⟨.ok, .exn "boom", .completed ⟨0, "", ""⟩⟩).result =
      Except.ok ⟨false, "", "Validation error: boom"⟩ :=
  (C2_try_block_exceptions_caught "x" false
    ⟨.ok, .exn "boom", .completed ⟨0, "", ""⟩⟩ rfl).2.1 "boom" rfl

/-- C3: on every path on which `validate_swift_code` returns a result (as
opposed to propagating an exception), the temporary file no longer exists:
the `finally: os.unlink(temp_file)` at line 60 runs on every exit from the
`try`, and the only paths that skip it are the ones that raise before the
`try` and therefore never return. -/
theorem C3_temp_file_removed_on_return (code : String) (run : Bool) (env : Env)
    (r : ValidationResult)
    (h : (validate_swift_code code run env).result = Except.ok r) :
    (validate_swift_code code run env).tempFileExistsAfter = false := by
  obtain ⟨ta, tc, ex⟩ := env
  cases ta with
  | ok =>
    cases tc with
    | exn m => rfl
    | completed p =>
      by_cases hp : p.returncode = 0
      · cases run with
        | false => simp [validate_swift_code, hp]
        | true => cases ex <;> simp [validate_swift_code, hp]
      · simp [validate_swift_code, hp]
  | exnBeforeCreate m => rfl
  | exnAfterCreate m => exact absurd h (by simp [validate_swift_code])

/-- C3 witness: the success path deletes the temporary file. -/
theorem C3_temp_file_removed_on_return_witness :
    (validate_swift_code "x" false
        ⟨.ok, .completed ⟨0, "", ""⟩, .completed ⟨0, "", ""⟩⟩).tempFileExistsAfter = false :=
  C3_temp_file_removed_on_return "x" false
    ⟨.ok, .completed ⟨0, "", ""⟩, .completed ⟨0, "", ""⟩⟩
    ⟨true, typecheckPassedMsg, ""⟩ rfl

/-- C4: the claim says exactly one of "valid with output" / "invalid with
errors" holds at return.  The timeout path refutes it: after a type-check
success followed by an execution timeout the returned dict has
`valid = True`, a non-empty `output` (the check-mark message) and a
non-empty `errors` (the timeout message) simultaneously. -/
theorem C4_timeout_result_populates_both_fields :
    ∃ r, (validate_swift_code "while true \x7b\x7d" true
        ⟨.ok, .completed ⟨0, "", ""⟩, .timeoutExpired⟩).result = Except.ok r ∧
      r.valid = true ∧ r.output ≠ "" ∧ r.errors ≠ "" :=
  ⟨⟨true, typecheckPassedMsg, "Execution timeout (5s limit)"⟩, rfl, rfl, by decide, by decide⟩

/-- C5: when the type-check process exits non-zero, `validate` returns
`valid = False` with `errors` equal to that process's captured stderr, and
the execution process is never reached, even with `run=True` (lines
40-42 return before the `if run:` block). -/
theorem C5_typecheck_failure_stops_pipeline (code : String) (run : Bool) (env : Env)
    (p : ProcResult)
    (hta : env.tempAcquire = TempOutcome.ok)
    (htc : env.typecheck = TypecheckOutcome.completed p)
    (hrc : p.returncode ≠ 0) :
    (validate_swift_code code run env).result = Except.ok ⟨false, "", p.stderr⟩ ∧
    (validate_swift_code code run env).execInvoked = false := by
  obtain ⟨ta, tc, ex⟩ := env
  simp only at hta htc
  subst hta; subst htc
  constructor <;> simp [validate_swift_code, hrc]

/-- C5 witness: a failed type-check with `run=True` surfaces the captured
stderr and never invokes execution. -/
theorem C5_typecheck_failure_stops_pipeline_witness :
    (validate_swift_code "let x: Int = \"oops\"" true
        ⟨.ok, .completed ⟨1, "", "type error"⟩, .completed ⟨0, "", ""⟩⟩).result =
      Except.ok ⟨false, "", "type error"⟩ ∧
    (validate_swift_code "let x: Int = \"oops\"" true
        ⟨.ok, .completed ⟨1, "", "type error"⟩, .completed ⟨0, "", ""⟩⟩).execInvoked = false :=
  C5_typecheck_failure_stops_pipeline "let x: Int = \"oops\"" true
    ⟨.ok, .completed ⟨1, "", "type error"⟩, .completed ⟨0, "", ""⟩⟩
    ⟨1, "", "type error"⟩ rfl rfl (by decide)

/-- C6: `validate_swiftui_view` equals `validate_swift_code` with
`run=False` applied to the concatenation of the fixed import line, the
fragment verbatim, and the fixed `ValidateApp`/`WindowGroup` declaration
referencing `ContentView`; and the execution process is never invoked for
a view fragment, whatever the fragment or the environment. -/
theorem C6_view_validation_wraps_and_never_executes (view_code : String) (env : Env) :
    validate_swiftui_view view_code env =
      validate_swift_code
        ("\nimport SwiftUI\n\n" ++ view_code ++
          "\n\n// Minimal validation wrapper\nstruct ValidateApp: App \x7b\n    var body: some Scene \x7b\n        WindowGroup \x7b\n            ContentView()\n        \x7d\n    \x7d\n\x7d\n")
        false env ∧
    (validate_swiftui_view view_code env).execInvoked = false :=
  ⟨rfl, execInvoked_false_of_run_false _ env⟩

/-- C7: whenever the validator CLI obtains a result (lines 108-118), it
exits 0 when `valid` is true and 1 when it is false, and in the invalid
case the diagnostic text is printed to stderr. -/
theorem C7_cli_exit_codes (view run : Bool) (code : String) (env : Env)
    (r : ValidationResult)
    (h : (if view then validate_swiftui_view code env
          else validate_swift_code code run env).result = Except.ok r) :
    cli_main view run code env = some (report_result r) ∧
    (report_result r).exitCode = (if r.valid then 0 else 1) ∧
    (r.valid = false →
      (report_result r).stderrText = "❌ INVALID\n" ++ r.errors ++ "\n") := by
  refine ⟨?_, ?_, ?_⟩
  · simp only [cli_main, h]
  · by_cases hv : r.valid <;> simp [report_result, hv]
  · intro hv; simp [report_result, hv]

/-- C7 witness: an invalid result exits 1 with the diagnostic on stderr. -/
theorem C7_cli_exit_codes_witness :
    cli_main false false "x" ⟨.ok, .completed ⟨1, "", "e"⟩, .completed ⟨0, "", ""⟩⟩ =
      some (report_result ⟨false, "", "e"⟩) ∧
    (report_result ⟨false, "", "e"⟩).stderrText = "❌ INVALID\n" ++ "e" ++ "\n" := by
  have h := C7_cli_exit_codes false false "x"
    ⟨.ok, .completed ⟨1, "", "e"⟩, .completed ⟨0, "", ""⟩⟩ ⟨false, "", "e"⟩ rfl
  exact ⟨h.1, h.2.2 rfl⟩

/-- C8: for every platform key absent from `TEMPLATES`, the lookup
`TEMPLATES.get(platform, TEMPLATES['ios'])` resolves to the ios template,
so the ios platform string `iOS` appears in the generated console line and
the `.iOS(.v17)` entry appears in the generated `Package.swift` text. -/
theorem C8_unknown_platform_falls_back_to_ios (name platform : String)
    (h1 : platform ≠ "ios") (h2 : platform ≠ "macos") (h3 : platform ≠ "multiplatform") :
    templates_get platform = ios_template ∧
    platform_line (templates_get platform) = "   Platform: iOS" ∧
    ∃ pre post, package_swift_text name (templates_get platform) =
      pre ++ ".iOS(.v17)" ++ post := by
  have e1 : (platform == "ios") = false := beq_eq_false_iff_ne.mpr h1
  have e2 : (platform == "macos") = false := beq_eq_false_iff_ne.mpr h2
  have e3 : (platform == "multiplatform") = false := beq_eq_false_iff_ne.mpr h3
  have hl : templates_get platform = ios_template := by
    simp [templates_get, TEMPLATES, List.lookup, e1, e2, e3]
  refine ⟨hl, by rw [hl]; rfl, ?_⟩
  rw [hl]
  refine ⟨pkgHead ++ name ++ pkgAfterName,
    pkgPlatformSep ++ "" ++ pkgTail name, ?_⟩
  show pkgHead ++ name ++ pkgAfterName ++ ".iOS(.v17)" ++ pkgPlatformSep ++ "" ++ pkgTail name =
    pkgHead ++ name ++ pkgAfterName ++ ".iOS(.v17)" ++ (pkgPlatformSep ++ "" ++ pkgTail name)
  simp [String.append_assoc]

/-- C8 witness: the spec's Scenario 4 input `platform="unknown-key"`. -/
theorem C8_unknown_platform_falls_back_to_ios_witness :
    templates_get "unknown-key" = ios_template ∧
    platform_line (templates_get "unknown-key") = "   Platform: iOS" ∧
    ∃ pre post, package_swift_text "MyApp" (templates_get "unknown-key") =
      pre ++ ".iOS(.v17)" ++ post :=
  C8_unknown_platform_falls_back_to_ios "MyApp" "unknown-key"
    (by decide) (by decide) (by decide)

/-- C9: when type-check passes, `run=True`, and the execution process
completes within the timeout, its exit status `ep.returncode` is nowhere
consulted (the conclusion holds for every value of it): the result keeps
`valid = True`, appends the execution stdout to `output`, appends stderr
as a `Warnings` section of `output` only when non-empty, and leaves
`errors` empty. -/
theorem C9_exec_exit_status_ignored (code : String) (env : Env) (p ep : ProcResult)
    (hta : env.tempAcquire = TempOutcome.ok)
    (htc : env.typecheck = TypecheckOutcome.completed p)
    (hrc : p.returncode = 0)
    (hex : env.execRun = ExecOutcome.completed ep) :
    (validate_swift_code code true env).result =
      Except.ok ⟨true,
        (if ep.stderr ≠ "" then
          typecheckPassedMsg ++ "\n\n--- Execution Output ---\n" ++ ep.stdout ++
            "\n--- Warnings ---\n" ++ ep.stderr
        else
          typecheckPassedMsg ++ "\n\n--- Execution Output ---\n" ++ ep.stdout), ""⟩ ∧
    (validate_swift_code code true env).execInvoked = true := by
  obtain ⟨ta, tc, ex⟩ := env
  simp only at hta htc hex
  subst hta; subst htc; subst hex
  constructor <;> simp [validate_swift_code, hrc]

/-- C9 witness: an execution that crashes with exit status 1 and non-empty
stderr still yields a valid result, with the stderr confined to the
Warnings section of `output`. -/
theorem C9_exec_exit_status_ignored_witness :
    (validate_swift_code "print(1)" true
        ⟨.ok, .completed ⟨0, "", ""⟩, .completed ⟨1, "out", "warn"⟩⟩).result =
      Except.ok ⟨true,
        typecheckPassedMsg ++ "\n\n--- Execution Output ---\n" ++ "out" ++
          "\n--- Warnings ---\n" ++ "warn", ""⟩ := by
  have h := C9_exec_exit_status_ignored "print(1)"
    ⟨.ok, .completed ⟨0, "", ""⟩, .completed ⟨1, "out", "warn"⟩⟩
    ⟨0, "", ""⟩ ⟨1, "out", "warn"⟩ rfl rfl rfl rfl
  simpa using h.1

/-- C10: for `platform="multiplatform"` the generated `Package.swift`
contains `.iOS(.v17)` and `.macOS(.v14)` in the platforms list, separated
exactly by `pkgPlatformSep` — a newline plus eight spaces, with no comma
(the generated manifest is therefore not syntactically valid Swift, but
that is what the f-string produces). -/
theorem C10_multiplatform_platform_entries (name : String) :
    (∃ pre post, package_swift_text name (templates_get "multiplatform") =
      pre ++ ".iOS(.v17)" ++ pkgPlatformSep ++ ".macOS(.v14)" ++ post) ∧
    pkgPlatformSep = "\n        " ∧
    strContains pkgPlatformSep "," = false :=
  ⟨⟨pkgHead ++ name ++ pkgAfterName, pkgTail name, rfl⟩, rfl, rfl⟩

end SwiftAppBuilder
